import Mathlib

/-!
Verification of the natural-language specification of
`Mikayelll1/networkjobaggregator` (file `AIOtest.py`) against a shallow
embedding of its code in Lean 4.

Modelling conventions (the definitions below are translated from the source):

* Python `dict`s (insertion-ordered, unique keys) are modelled as association
  lists `List (String × α)`; `dictGet` mirrors `d.get(k)` (first entry whose
  key matches), `dictInsert` mirrors `d[k] = v` (update in place if the key
  exists, else append), `dictRemove` mirrors `del d[k]`.
* `hashlib.sha256(...).hexdigest()` is an external deterministic function; the
  auth operations are parametric in it (`hp : String → String`).
* Exceptions raised to FastAPI's boundary become `Except` values carrying the
  HTTP status code and, where the source uses a fixed string, the source's
  exact `detail` string.
* `secrets.token_hex(16)` is an external source of randomness; `login` takes
  the fresh token as an explicit argument.
-/

set_option autoImplicit false

namespace NJA

/-- `d.get(k)` on a Python dict: the value of the first entry whose key is `k`. -/
def dictGet {α : Type} (d : List (String × α)) (k : String) : Option α :=
  (d.find? (fun p => p.1 == k)).map (fun p => p.2)

/-- `d[k] = v` on a Python dict: update an existing entry in place, else append. -/
def dictInsert {α : Type} (d : List (String × α)) (k : String) (v : α) :
    List (String × α) :=
  if d.any (fun p => p.1 == k) then
    d.map (fun p => if p.1 == k then (k, v) else p)
  else
    d ++ [(k, v)]

/-- `del d[k]` on a Python dict: drop the entry whose key is `k`. -/
def dictRemove {α : Type} (d : List (String × α)) (k : String) :
    List (String × α) :=
  d.filter (fun p => !(p.1 == k))

/-- A stored user record, `users[username] = {"password": ..., "email": ...}`
(`AIOtest.py` lines 65-68).  The `password` field holds the hash, the `email`
field holds the optional email (`None` when not supplied). -/
structure UserRec where
  password : String
  email : Option String
deriving DecidableEq, Repr

/-- The process-wide mutable state: the `users` and `tokens` dicts
(`AIOtest.py` lines 46-47).  A token's stored value is `Option String`
because `login` stores the result of `next(..., None)`. -/
structure AppState where
  users : List (String × UserRec)
  tokens : List (String × Option String)
deriving DecidableEq, Repr

/-- The empty initial state (`users = {}`, `tokens = {}`). -/
def emptyState : AppState := ⟨[], []⟩

/-- Python truthiness of the optional `user.email` (`if user.email and ...`):
`None` and the empty string are falsy. -/
def emailTruthy : Option String → Bool
  | none => false
  | some s => decide (s ≠ "")

/-- `POST /register` (`AIOtest.py` lines 58-69), parametric in the one-way
password hash `hp` (`hash_password`, line 49-50).  Errors carry the HTTP
status and the source's `detail` string. -/
def register (hp : String → String) (st : AppState) (username password : String)
    (email : Option String) : Except (Nat × String) (AppState × String) :=
  if (dictGet st.users username).isSome then
    .error (400, "Username already exists")
  else if emailTruthy email && st.users.any (fun p => p.2.email == email) then
    .error (400, "Email already registered")
  else
    .ok ({ st with users := dictInsert st.users username ⟨hp password, email⟩ },
         "User registered")

/-- The record lookup of `login` (`AIOtest.py` lines 74-80): the identifier is
matched against usernames first (`users.get(user.username)`), then, only if no
username matched, against stored emails (the `for uname, u in users.items()`
scan, which takes the first record whose email equals the identifier). -/
def lookupRecord (st : AppState) (identifier : String) : Option UserRec :=
  match dictGet st.users identifier with
  | some r => some r
  | none => (st.users.find? (fun p => p.2.email == some identifier)).map (fun p => p.2)

/-- `POST /login` (`AIOtest.py` lines 71-87).  The fresh token produced by
`secrets.token_hex(16)` is an explicit argument; the token is bound by the
source's reverse value lookup
`next((k for k, v in users.items() if v == record), None)`. -/
def login (hp : String → String) (st : AppState) (identifier password freshToken : String) :
    Except (Nat × String) (AppState × String) :=
  match lookupRecord st identifier with
  | none => .error (401, "Invalid username/email or password")
  | some r =>
    if r.password = hp password then
      let bound : Option String := (st.users.find? (fun p => p.2 == r)).map (fun p => p.1)
      .ok ({ st with tokens := dictInsert st.tokens freshToken bound }, freshToken)
    else
      .error (401, "Invalid username/email or password")

/-- `GET /profile` (`AIOtest.py` lines 89-100), after the `Bearer ` prefix has
been stripped from the header.  `if not username` treats an absent token, a
stored `None` and a stored empty string alike; the `(500, "AttributeError")`
branch models the crash `users.get(username)` returning `None` followed by
`None.get("email")`. -/
def profile (st : AppState) (token : String) :
    Except (Nat × String) (String × Option String) :=
  match dictGet st.tokens token with
  | none => .error (401, "Invalid token")
  | some none => .error (401, "Invalid token")
  | some (some username) =>
    if username = "" then .error (401, "Invalid token")
    else
      match dictGet st.users username with
      | none => .error (500, "AttributeError")
      | some u => .ok (username, u.email)

/-- `POST /logout` (`AIOtest.py` lines 102-111), after the `Bearer ` prefix
has been stripped.  Membership (`token not in tokens`) is tested, not
truthiness, so a token bound to `None` can still be logged out. -/
def logout (st : AppState) (token : String) :
    Except (Nat × String) (AppState × String) :=
  if (dictGet st.tokens token).isSome then
    .ok ({ st with tokens := dictRemove st.tokens token }, "Logged out successfully")
  else
    .error (401, "Invalid token")

/-- One inbound auth request; `opLogin` carries the fresh token that
`secrets.token_hex(16)` would produce. -/
inductive Op
  | opRegister (username password : String) (email : Option String)
  | opLogin (identifier password freshToken : String)
  | opProfile (token : String)
  | opLogout (token : String)
deriving DecidableEq, Repr

/-- The state after one request: a failed request leaves the shared dicts
unchanged, and `profile` never mutates them. -/
def stepOp (hp : String → String) (st : AppState) : Op → AppState
  | .opRegister u p e =>
    match register hp st u p e with
    | .ok r => r.1
    | .error _ => st
  | .opLogin i p t =>
    match login hp st i p t with
    | .ok r => r.1
    | .error _ => st
  | .opProfile _ => st
  | .opLogout t =>
    match logout st t with
    | .ok r => r.1
    | .error _ => st

/-- The state after a sequence of requests. -/
def runOps (hp : String → String) (st : AppState) (ops : List Op) : AppState :=
  ops.foldl (stepOp hp) st

/-- Does this operation bind the given token string (i.e. is it a login whose
fresh token is that string)? -/
def opIssues : Op → String → Bool
  | .opLogin _ _ tk, t => tk == t
  | _, _ => false

/-- One token entry is well-formed: it stores a non-`None` username that is a
key of the user store. -/
def tokenOk (users : List (String × UserRec)) : String × Option String → Bool
  | (_, some u) => (dictGet users u).isSome
  | (_, none) => false

/-- The session invariant of claim C10: every entry of `tokens` stores a
non-`None` username that is a key of `users`. -/
def sessionInvB (st : AppState) : Bool :=
  st.tokens.all (tokenOk st.users)

/-- An uploaded document as `PyPDF2` presents it to this code:
`PyPDF2.PdfReader(io.BytesIO(contents))` either fails (corrupt container,
unsupported format — the `.error` case) or yields `reader.pages`, where each
page's `page.extract_text()` is modelled at its interface: the page's text, or
no text (`none`, covering `None`/pages without extractable text such as
scanned images). -/
def PdfDoc : Type := Except Unit (List (Option String))

/-- `"".join(page.extract_text() or "" for page in reader.pages)`
(`AIOtest.py` line 138): concatenation in page order with no separator,
a page with no text contributing `""`. -/
def joinPages (pages : List (Option String)) : String :=
  String.join (pages.map (fun p => p.getD ""))

/-- Python's `s.strip()` is falsy exactly when every character of `s` is
whitespace (in particular when `s` is empty). -/
def isStripEmpty (s : String) : Bool :=
  s.toList.all Char.isWhitespace

/-- Python's `s.strip()`: drop leading and trailing whitespace. -/
def pyStrip (s : String) : String :=
  ⟨((s.toList.dropWhile Char.isWhitespace).reverse.dropWhile Char.isWhitespace).reverse⟩

/-- The JSON value of `POST /extract_pdf_text`. -/
structure ExtractResult where
  text : String
  warning : Option String
deriving DecidableEq, Repr

/-- `POST /extract_pdf_text` (`AIOtest.py` lines 133-141).  A container that
cannot be opened raises, caught by the handler's single `except` → 500;
otherwise the page texts are joined and the result is flagged with a warning
exactly when the joined text is empty or whitespace-only
(`if full_text.strip()`). -/
def extract_pdf_text (doc : PdfDoc) : Except Nat ExtractResult :=
  match doc with
  | .error _ => .error 500
  | .ok pages =>
    let full_text := joinPages pages
    if isStripEmpty full_text then .ok ⟨"", some "No extractable text found."⟩
    else .ok ⟨full_text, none⟩

/-- `POST /analyze-pdf` (`AIOtest.py` lines 144-160).  `advisory` is the
outcome of the single chat-completion call the handler may make; the second
component of the result counts how many advisory calls were performed. -/
def analyze_pdf (doc : PdfDoc) (advisory : Except String String) :
    Except Nat String × Nat :=
  match doc with
  | .error _ => (.error 500, 0)
  | .ok pages =>
    let text := joinPages pages
    if isStripEmpty text then (.ok "No extractable text found in the PDF.", 0)
    else
      match advisory with
      | .ok content => (.ok (pyStrip content), 1)
      | .error _ => (.error 500, 1)

/-- A JSON value, as far as this code consumes provider responses. -/
inductive Json
  | null
  | bool (b : Bool)
  | num (n : Int)
  | str (s : String)
  | arr (xs : List Json)
  | obj (fields : List (String × Json))

/-- `x.get(k, default)` on a Python value: succeeds only when `x` is a dict
(anything else raises `AttributeError`); an absent key yields the default, a
key stored with value `None` yields `None` (i.e. `Json.null`), exactly like
`dict.get`. -/
def pyGet (j : Json) (k : String) (default : Json) : Except Unit Json :=
  match j with
  | .obj fields => .ok ((dictGet fields k).getD default)
  | _ => .error ()

/-- The exceptions `get_jobs` distinguishes: `requests.HTTPError` (raised by
`raise_for_status()` on a non-2xx response) versus every other exception. -/
inductive PyExn
  | httpErr (code : Nat)
  | otherErr
deriving DecidableEq, Repr

/-- The outcome of the single outbound `requests.get(...)` call, as seen by
`fetch_jobs_from_jsearch`: a transport failure (`ConnectionError`/`Timeout`,
which are `RequestException`s but not `HTTPError`s), a non-2xx HTTP response,
a 2xx response whose body fails to parse as JSON, or a parsed body — whose
`"data"` field is the job list (absent `"data"` yields `[]` via
`response.json().get("data", [])`). -/
inductive ProviderOutcome
  | netFail
  | httpError (code : Nat)
  | badJson
  | okNoData
  | okData (jobs : List Json)

/-- `fetch_jobs_from_jsearch` (`AIOtest.py` lines 205-236).  The headers are
built from the `RAPIDAPI_KEY2` environment value (`key`, possibly absent); no
presence check is performed — the request is issued regardless, so the result
never depends on `key`. -/
def fetch_jobs_from_jsearch (key : Option String) (out : ProviderOutcome) :
    Except PyExn (List Json) :=
  match out with
  | .netFail => .error .otherErr
  | .httpError c => .error (.httpErr c)
  | .badJson => .error .otherErr
  | .okNoData => .ok []
  | .okData jobs => .ok jobs

/-- The per-record dict literal of `get_jobs` (`AIOtest.py` lines 242-257),
evaluated field by field in source order; any `.get` on a non-dict value
raises (the `.error` case). -/
def normalize_job (job : Json) : Except Unit (List (String × Json)) := do
  let title ← pyGet job "job_title" (.str "N/A")
  let company ← pyGet job "employer_name" (.str "N/A")
  let salary ← pyGet job "job_min_salary" (.str "N/A")
  let max_salary ← pyGet job "job_max_salary" (.str "N/A")
  let employment_type ← pyGet job "job_employment_type" (.str "N/A")
  let location ← pyGet job "job_city" (.str "N/A")
  let country ← pyGet job "job_country" (.str "N/A")
  let description ← pyGet job "job_description" (.str "N/A")
  let reqExp ← pyGet job "job_required_experience" (.obj [])
  let requirements ← pyGet reqExp "required_qualification" (.str "N/A")
  let hl ← pyGet job "job_highlights" (.obj [])
  let highlights ← pyGet hl "Qualifications" (.arr [])
  let logo ← pyGet job "employer_logo" .null
  let remote ← pyGet job "job_is_remote" (.bool false)
  let date_posted ← pyGet job "job_posted_at_datetime_utc" (.str "N/A")
  let apply_link ← pyGet job "job_apply_link" (.str "N/A")
  pure [("title", title), ("company", company), ("salary", salary),
        ("max_salary", max_salary), ("employment_type", employment_type),
        ("location", location), ("country", country),
        ("description", description), ("requirements", requirements),
        ("highlights", highlights), ("logo", logo), ("remote", remote),
        ("date_posted", date_posted), ("apply_link", apply_link)]

/-- `GET /api/jobs` (`AIOtest.py` lines 238-265): runs the fetch, normalizes
every returned record, and maps a `requests.HTTPError` to
`(502, "External API error")` and every other exception to
`(500, "Internal server error")`. -/
def get_jobs (key : Option String) (out : ProviderOutcome) :
    Except (Nat × String) (List (List (String × Json))) :=
  match fetch_jobs_from_jsearch key out with
  | .error (.httpErr _) => .error (502, "External API error")
  | .error .otherErr => .error (500, "Internal server error")
  | .ok jobs =>
    match jobs.mapM normalize_job with
    | .ok results => .ok results
    | .error _ => .error (500, "Internal server error")

theorem dictGet_nil {α : Type} (k : String) : dictGet ([] : List (String × α)) k = none := rfl

theorem dictGet_cons {α : Type} (p : String × α) (d : List (String × α)) (k : String) :
    dictGet (p :: d) k = if p.1 == k then some p.2 else dictGet d k := by
  simp only [dictGet, List.find?]
  cases h : (p.1 == k) <;> simp [h]

theorem dictGet_insert_self {α : Type} (d : List (String × α)) (k : String) (v : α) :
    dictGet (dictInsert d k v) k = some v := by
  unfold dictInsert
  split
  · rename_i h
    induction d with
    | nil => simp at h
    | cons p d ih =>
      simp only [List.map_cons]
      rw [dictGet_cons]
      by_cases hk : p.1 = k
      · simp [hk]
      · have hb : (p.1 == k) = false := by simp [hk]
        simp only [hb]
        simp only [List.any_cons, hb, Bool.false_or] at h
        simpa [hb] using ih h
  · rename_i h
    induction d with
    | nil => simp [dictGet]
    | cons p d ih =>
      simp only [List.any_cons, Bool.or_eq_true, not_or] at h
      rw [List.cons_append, dictGet_cons]
      have hb : (p.1 == k) = false := by
        cases hpk : (p.1 == k) <;> simp_all
      simp only [hb, if_false]
      exact ih (by simpa using h.2)

theorem dictGet_map_update_ne {α : Type} (d : List (String × α)) (k k' : String) (v : α)
    (hne : k' ≠ k) :
    dictGet (d.map (fun p => if p.1 == k then (k, v) else p)) k' = dictGet d k' := by
  induction d with
  | nil => rfl
  | cons p d ih =>
    simp only [List.map_cons]
    rw [dictGet_cons, dictGet_cons]
    by_cases hk : p.1 = k
    · have hb : (p.1 == k) = true := beq_iff_eq.mpr hk
      have hkk : (k == k') = false := beq_eq_false_iff_ne.mpr (Ne.symm hne)
      have hpk : (p.1 == k') = false := by rw [hk]; exact hkk
      simp only [hb, hkk, hpk, if_true, Bool.false_eq_true, if_false]
      simpa using ih
    · have hb : (p.1 == k) = false := beq_eq_false_iff_ne.mpr hk
      simp only [hb, Bool.false_eq_true, if_false]
      cases hpk : (p.1 == k')
      · simp only [hpk, Bool.false_eq_true, if_false]
        exact ih
      · simp only [hpk, if_true]

theorem dictGet_append_single_ne {α : Type} (d : List (String × α)) (k k' : String) (v : α)
    (hne : k' ≠ k) : dictGet (d ++ [(k, v)]) k' = dictGet d k' := by
  induction d with
  | nil =>
    simp only [List.nil_append]
    rw [dictGet_cons]
    have hkk : (k == k') = false := beq_eq_false_iff_ne.mpr (Ne.symm hne)
    simp [hkk, dictGet]
  | cons p d ih =>
    rw [List.cons_append, dictGet_cons, dictGet_cons]
    cases h : (p.1 == k') <;> simp [h, ih]

theorem dictGet_insert_ne {α : Type} (d : List (String × α)) (k k' : String) (v : α)
    (hne : k' ≠ k) : dictGet (dictInsert d k v) k' = dictGet d k' := by
  unfold dictInsert
  split
  · exact dictGet_map_update_ne d k k' v hne
  · exact dictGet_append_single_ne d k k' v hne

theorem dictGet_isSome_of_mem {α : Type} (d : List (String × α)) (k : String) (v : α)
    (h : (k, v) ∈ d) : (dictGet d k).isSome = true := by
  induction d with
  | nil => simp at h
  | cons p d ih =>
    rw [dictGet_cons]
    rcases List.mem_cons.mp h with h1 | h2
    · subst h1; simp
    · cases hpk : (p.1 == k) <;> simp [ih h2]

theorem dictGet_mem {α : Type} (d : List (String × α)) (k : String) (v : α)
    (h : dictGet d k = some v) : (k, v) ∈ d := by
  induction d with
  | nil => simp [dictGet] at h
  | cons p d ih =>
    rw [dictGet_cons] at h
    by_cases hpk : (p.1 == k)
    · simp only [hpk, if_true] at h
      have h1 : p.1 = k := by simpa using hpk
      have h2 : p.2 = v := by simpa using h
      have hp : p = (k, v) := by cases p; simp_all
      rw [← hp]
      exact List.mem_cons_self _ _
    · simp only [hpk, if_false] at h
      exact List.mem_cons_of_mem _ (ih h)

theorem dictGet_remove_self {α : Type} (d : List (String × α)) (k : String) :
    dictGet (dictRemove d k) k = none := by
  induction d with
  | nil => rfl
  | cons p d ih =>
    unfold dictRemove
    simp only [List.filter_cons]
    cases h : (p.1 == k)
    · simp only [h, Bool.not_false, if_true]
      rw [dictGet_cons]
      simpa [h, dictRemove] using ih
    · simpa [h, dictRemove] using ih

theorem dictGet_remove_none {α : Type} (d : List (String × α)) (k k' : String)
    (h : dictGet d k' = none) : dictGet (dictRemove d k) k' = none := by
  induction d with
  | nil => rfl
  | cons p d ih =>
    rw [dictGet_cons] at h
    by_cases hpk : (p.1 == k')
    · simp [hpk] at h
    · simp only [hpk, if_false] at h
      unfold dictRemove
      simp only [List.filter_cons]
      cases hk : (p.1 == k)
      · simp only [hk, Bool.not_false, if_true]
        rw [dictGet_cons]
        simpa [hpk, dictRemove] using ih h
      · simpa [dictRemove] using ih h

theorem mem_dictInsert {α : Type} (d : List (String × α)) (k : String) (v : α)
    (p : String × α) (h : p ∈ dictInsert d k v) : p ∈ d ∨ p = (k, v) := by
  unfold dictInsert at h
  split at h
  · rcases List.mem_map.mp h with ⟨q, hq, hfq⟩
    by_cases hk : q.1 = k
    · right
      have hb : (q.1 == k) = true := by simp [hk]
      rw [hb] at hfq
      simp at hfq
      exact hfq.symm
    · left
      have : (q.1 == k) = false := by simp [hk]
      rw [this] at hfq
      simp at hfq
      subst hfq
      exact hq
  · rcases List.mem_append.mp h with h1 | h2
    · left; exact h1
    · right; simpa using h2

theorem normalize_job_obj (fields : List (String × Json)) :
    normalize_job (.obj fields) =
      (pyGet ((dictGet fields "job_required_experience").getD (.obj []))
          "required_qualification" (.str "N/A")).bind (fun requirements =>
        (pyGet ((dictGet fields "job_highlights").getD (.obj []))
            "Qualifications" (.arr [])).bind (fun highlights =>
          .ok [("title", (dictGet fields "job_title").getD (.str "N/A")),
               ("company", (dictGet fields "employer_name").getD (.str "N/A")),
               ("salary", (dictGet fields "job_min_salary").getD (.str "N/A")),
               ("max_salary", (dictGet fields "job_max_salary").getD (.str "N/A")),
               ("employment_type", (dictGet fields "job_employment_type").getD (.str "N/A")),
               ("location", (dictGet fields "job_city").getD (.str "N/A")),
               ("country", (dictGet fields "job_country").getD (.str "N/A")),
               ("description", (dictGet fields "job_description").getD (.str "N/A")),
               ("requirements", requirements),
               ("highlights", highlights),
               ("logo", (dictGet fields "employer_logo").getD .null),
               ("remote", (dictGet fields "job_is_remote").getD (.bool false)),
               ("date_posted", (dictGet fields "job_posted_at_datetime_utc").getD (.str "N/A")),
               ("apply_link", (dictGet fields "job_apply_link").getD (.str "N/A"))])) := rfl

/-- Claim C2, as stated, is false: the normalized record's salary keys are
`salary` and `max_salary`, not `salary_min` and `salary_max`.  Concretely, the
normalization of a provider record with every field absent produces exactly
the fourteen keys below, among which `salary_min` and `salary_max` do not
occur. -/
theorem C2_counterexample :
    (normalize_job (.obj [])).map (fun l => l.map Prod.fst)
      = .ok ["title", "company", "salary", "max_salary", "employment_type", "location",
             "country", "description", "requirements", "highlights", "logo", "remote",
             "date_posted", "apply_link"] ∧
    (normalize_job (.obj [])).map (fun l => (l.map Prod.fst).contains "salary_min") = .ok false ∧
    (normalize_job (.obj [])).map (fun l => (l.map Prod.fst).contains "salary_max") = .ok false :=
  ⟨rfl, rfl, rfl⟩

/-- Claim C2 (amended: the salary keys are `salary` and `max_salary` rather
than the spec's `salary_min`/`salary_max`): every record the normalization
returns has exactly the fourteen fixed keys, in order, and every field absent
in the provider record is substituted by its documented placeholder
(`"N/A"`; `null` for `logo`, `false` for `remote`, `[]` for `highlights`);
no key is ever omitted. -/
theorem C2_normalized_shape (fields : List (String × Json)) (out : List (String × Json))
    (h : normalize_job (.obj fields) = .ok out) :
    out.map Prod.fst = ["title", "company", "salary", "max_salary", "employment_type",
      "location", "country", "description", "requirements", "highlights", "logo",
      "remote", "date_posted", "apply_link"] ∧
    (dictGet fields "job_title" = none → dictGet out "title" = some (.str "N/A")) ∧
    (dictGet fields "employer_name" = none → dictGet out "company" = some (.str "N/A")) ∧
    (dictGet fields "job_min_salary" = none → dictGet out "salary" = some (.str "N/A")) ∧
    (dictGet fields "job_max_salary" = none → dictGet out "max_salary" = some (.str "N/A")) ∧
    (dictGet fields "job_employment_type" = none →
      dictGet out "employment_type" = some (.str "N/A")) ∧
    (dictGet fields "job_city" = none → dictGet out "location" = some (.str "N/A")) ∧
    (dictGet fields "job_country" = none → dictGet out "country" = some (.str "N/A")) ∧
    (dictGet fields "job_description" = none → dictGet out "description" = some (.str "N/A")) ∧
    (dictGet fields "job_required_experience" = none →
      dictGet out "requirements" = some (.str "N/A")) ∧
    (dictGet fields "job_highlights" = none → dictGet out "highlights" = some (.arr [])) ∧
    (dictGet fields "employer_logo" = none → dictGet out "logo" = some .null) ∧
    (dictGet fields "job_is_remote" = none → dictGet out "remote" = some (.bool false)) ∧
    (dictGet fields "job_posted_at_datetime_utc" = none →
      dictGet out "date_posted" = some (.str "N/A")) ∧
    (dictGet fields "job_apply_link" = none → dictGet out "apply_link" = some (.str "N/A")) := by
  rw [normalize_job_obj] at h
  cases hr : pyGet ((dictGet fields "job_required_experience").getD (.obj []))
      "required_qualification" (.str "N/A") with
  | error e => rw [hr] at h; simp [Except.bind] at h
  | ok req =>
    rw [hr] at h
    cases hh : pyGet ((dictGet fields "job_highlights").getD (.obj []))
        "Qualifications" (.arr []) with
    | error e => rw [hh] at h; simp [Except.bind] at h
    | ok hl =>
      rw [hh] at h
      simp only [Except.bind] at h
      have hout := Except.ok.inj h
      subst hout
      refine ⟨rfl, ?ha, ?hb, ?hc, ?hd, ?he, ?hf, ?hg, ?hh2, ?hreq, ?hhl, ?hi, ?hj, ?hk, ?hm⟩
      case hreq =>
        intro habs
        rw [habs] at hr
        have hrq := Except.ok.inj hr
        simp [dictGet, ← hrq, pyGet]
      case hhl =>
        intro habs
        rw [habs] at hh
        have hhq := Except.ok.inj hh
        simp [dictGet, ← hhq, pyGet]
      all_goals
        intro habs
        simp only [dictGet] at habs
        simp [dictGet, habs]


/-- Witness for C2_normalized_shape at the provider record with every field
absent: the normalization yields the fixed key list and substitutes
`logo: null` and `remote: false`. -/
theorem C2_witness :
    (([("title", Json.str "N/A"), ("company", Json.str "N/A"), ("salary", Json.str "N/A"),
      ("max_salary", Json.str "N/A"), ("employment_type", Json.str "N/A"),
      ("location", Json.str "N/A"), ("country", Json.str "N/A"),
      ("description", Json.str "N/A"), ("requirements", Json.str "N/A"),
      ("highlights", Json.arr []), ("logo", Json.null), ("remote", Json.bool false),
      ("date_posted", Json.str "N/A"), ("apply_link", Json.str "N/A")]
      : List (String × Json)).map Prod.fst
      = ["title", "company", "salary", "max_salary", "employment_type", "location",
         "country", "description", "requirements", "highlights", "logo", "remote",
         "date_posted", "apply_link"]) ∧
    dictGet
      [("title", Json.str "N/A"), ("company", Json.str "N/A"), ("salary", Json.str "N/A"),
      ("max_salary", Json.str "N/A"), ("employment_type", Json.str "N/A"),
      ("location", Json.str "N/A"), ("country", Json.str "N/A"),
      ("description", Json.str "N/A"), ("requirements", Json.str "N/A"),
      ("highlights", Json.arr []), ("logo", Json.null), ("remote", Json.bool false),
      ("date_posted", Json.str "N/A"), ("apply_link", Json.str "N/A")]
      "logo" = some Json.null ∧
    dictGet
      [("title", Json.str "N/A"), ("company", Json.str "N/A"), ("salary", Json.str "N/A"),
      ("max_salary", Json.str "N/A"), ("employment_type", Json.str "N/A"),
      ("location", Json.str "N/A"), ("country", Json.str "N/A"),
      ("description", Json.str "N/A"), ("requirements", Json.str "N/A"),
      ("highlights", Json.arr []), ("logo", Json.null), ("remote", Json.bool false),
      ("date_posted", Json.str "N/A"), ("apply_link", Json.str "N/A")]
      "remote" = some (Json.bool false) := by
  have h := C2_normalized_shape []
    [("title", Json.str "N/A"), ("company", Json.str "N/A"), ("salary", Json.str "N/A"),
      ("max_salary", Json.str "N/A"), ("employment_type", Json.str "N/A"),
      ("location", Json.str "N/A"), ("country", Json.str "N/A"),
      ("description", Json.str "N/A"), ("requirements", Json.str "N/A"),
      ("highlights", Json.arr []), ("logo", Json.null), ("remote", Json.bool false),
      ("date_posted", Json.str "N/A"), ("apply_link", Json.str "N/A")]
    rfl
  exact ⟨h.1, h.2.2.2.2.2.2.2.2.2.2.2.1 rfl, h.2.2.2.2.2.2.2.2.2.2.2.2.1 rfl⟩

/-- Claim C3, as stated, is false on two counts, witnessed concretely: a
transport-level network failure (`requests.get` raising, which is not a
`requests.HTTPError`) is mapped to 500, not 502; and with the provider
credential missing the normalized route still consumes a provider outcome (a
503 response mapped to 502) — there is no `MisconfiguredService` check before
the call. -/
theorem C3_counterexample :
    get_jobs (some "k") .netFail = .error (500, "Internal server error") ∧
    get_jobs none (.httpError 503) = .error (502, "External API error") :=
  ⟨rfl, rfl⟩

/-- Claim C3 (amended): for the normalized job search, a non-2xx provider
response (`requests.HTTPError`) surfaces as 502; a transport-level network
failure, a malformed JSON body, and a failure while normalizing the records
all surface as 500; and no credential check is performed — the handler's
behaviour is identical whether the provider credential is present or
missing. -/
theorem C3_error_mapping (key : Option String) :
    (∀ c : Nat, get_jobs key (.httpError c) = .error (502, "External API error")) ∧
    (get_jobs key .netFail = .error (500, "Internal server error")) ∧
    (get_jobs key .badJson = .error (500, "Internal server error")) ∧
    (∀ jobs : List Json, jobs.mapM normalize_job = .error () →
      get_jobs key (.okData jobs) = .error (500, "Internal server error")) ∧
    (∀ out : ProviderOutcome, get_jobs key out = get_jobs none out) := by
  refine ⟨fun c => rfl, rfl, rfl, ?_, ?_⟩
  · intro jobs h
    have h2 : List.mapM.loop normalize_job jobs [] = .error () := h
    simp [get_jobs, fetch_jobs_from_jsearch, h2]
  · intro out
    cases out <;> rfl

/-- Witness for C3_error_mapping at concrete inputs: a single malformed
record (`null` is not a dict, so `.get` raises) makes normalization fail and
the route answer 500; a 503 maps to 502; a network failure is handled the
same with and without the credential. -/
theorem C3_witness :
    ([Json.null].mapM normalize_job = .error ()) ∧
    get_jobs (some "k") (.okData [Json.null]) = .error (500, "Internal server error") ∧
    get_jobs (some "k") (.httpError 503) = .error (502, "External API error") ∧
    get_jobs (some "k") .netFail = get_jobs none .netFail :=
  ⟨rfl, (C3_error_mapping (some "k")).2.2.2.1 [Json.null] rfl,
   (C3_error_mapping (some "k")).1 503, (C3_error_mapping (some "k")).2.2.2.2 .netFail⟩

/-- Claim C4: text extraction fails as a whole exactly when the document
container cannot be opened (the single `MalformedDocument`-flavoured 500);
a page that yields no text is absorbed as an empty-string substitution — a
document in which some page's extraction yields nothing behaves identically
to the same document with that page replaced by an empty text page, so a
page-level no-text outcome never aborts the operation. -/
theorem C4_extract_failure_exactly_on_container :
    (∀ doc : PdfDoc, (extract_pdf_text doc).isOk = false ↔ doc = .error ()) ∧
    (∀ before after : List (Option String),
      extract_pdf_text (.ok (before ++ none :: after))
        = extract_pdf_text (.ok (before ++ some "" :: after))) := by
  constructor
  · intro doc
    match doc with
    | .error e => cases e; simp [extract_pdf_text, Except.isOk, Except.toBool]
    | .ok pages =>
      simp only [extract_pdf_text]
      constructor
      · intro h
        split at h <;> simp [Except.isOk, Except.toBool] at h
      · intro h
        exact absurd h (by simp)
  · intro before after
    simp [extract_pdf_text, joinPages, List.map_append]

/-- Witness for C4_extract_failure_exactly_on_container at concrete inputs. -/
theorem C4_witness :
    ((extract_pdf_text (.error ())).isOk = false) ∧
    extract_pdf_text (.ok [none, some "CV"]) = extract_pdf_text (.ok [some "", some "CV"]) :=
  ⟨(C4_extract_failure_exactly_on_container.1 (.error ())).mpr rfl,
   C4_extract_failure_exactly_on_container.2 [] [some "CV"]⟩

/-- Claim C5, as stated, is false for a whitespace-only concatenation: a
document whose single page extracts to `" "` has concatenation `" "`, yet the
endpoint returns `text = ""` (with the warning), not the concatenation. -/
theorem C5_counterexample :
    joinPages [some " "] = " " ∧
    extract_pdf_text (.ok [some " "]) = .ok ⟨"", some "No extractable text found."⟩ :=
  ⟨rfl, rfl⟩

/-- Claim C5 (amended: when the concatenation is empty or whitespace-only the
returned text is `""`, not the concatenation): extraction of an openable
document always succeeds; the result carries the warning iff the concatenation
of the per-page texts (pages yielding no text contributing `""`) is empty or
whitespace-only; otherwise the returned text is exactly that concatenation;
in particular one text page followed by one blank page returns the first
page's text with no warning. -/
theorem C5_extract_text_characterization :
    (∀ pages : List (Option String), ∃ r : ExtractResult,
      extract_pdf_text (.ok pages) = .ok r ∧
      (r.warning.isSome = true ↔ isStripEmpty (joinPages pages) = true) ∧
      (isStripEmpty (joinPages pages) = false → r.text = joinPages pages) ∧
      (isStripEmpty (joinPages pages) = true → r.text = "")) ∧
    (∀ t : String, isStripEmpty t = false →
      extract_pdf_text (.ok [some t, none]) = .ok ⟨t, none⟩) := by
  constructor
  · intro pages
    cases h : isStripEmpty (joinPages pages) with
    | true =>
      exact ⟨⟨"", some "No extractable text found."⟩,
        by simp [extract_pdf_text, h], by simp [h], by simp [h], fun _ => rfl⟩
    | false =>
      exact ⟨⟨joinPages pages, none⟩,
        by simp [extract_pdf_text, h], by simp [h], fun _ => rfl, by simp [h]⟩
  · intro t ht
    have hj : joinPages [some t, none] = t := by simp [joinPages, String.join]
    simp [extract_pdf_text, hj, ht]

/-- Witness for C5_extract_text_characterization at concrete inputs. -/
theorem C5_witness :
    (∃ r : ExtractResult,
      extract_pdf_text (.ok [some "CV", none]) = .ok r ∧
      (r.warning.isSome = true ↔ isStripEmpty (joinPages [some "CV", none]) = true) ∧
      (isStripEmpty (joinPages [some "CV", none]) = false → r.text = joinPages [some "CV", none]) ∧
      (isStripEmpty (joinPages [some "CV", none]) = true → r.text = "")) ∧
    extract_pdf_text (.ok [some "CV", none]) = .ok ⟨"CV", none⟩ :=
  ⟨C5_extract_text_characterization.1 [some "CV", none],
   C5_extract_text_characterization.2 "CV" (by decide)⟩

/-- Claim C6: whenever the extracted text of an openable document is empty or
whitespace-only, `/analyze-pdf` answers with the fixed "no extractable text"
response and performs zero calls to the advisory endpoint, whatever that
endpoint would have answered. -/
theorem C6_analyze_short_circuit (pages : List (Option String))
    (advisory : Except String String) (h : isStripEmpty (joinPages pages) = true) :
    analyze_pdf (.ok pages) advisory = (.ok "No extractable text found in the PDF.", 0) := by
  simp [analyze_pdf, h]

/-- Witness for C6_analyze_short_circuit: a document of one no-text page and
one whitespace page, with an advisory endpoint that would have answered. -/
theorem C6_witness :
    isStripEmpty (joinPages [none, some " "]) = true ∧
    analyze_pdf (.ok [none, some " "]) (.ok "resp")
      = (.ok "No extractable text found in the PDF.", 0) :=
  ⟨by decide, C6_analyze_short_circuit [none, some " "] (.ok "resp") (by decide)⟩

theorem lookupRecord_mem (st : AppState) (i : String) (r : UserRec)
    (h : lookupRecord st i = some r) : ∃ q ∈ st.users, q.2 = r := by
  unfold lookupRecord at h
  cases hd : dictGet st.users i with
  | some r0 =>
    rw [hd] at h
    have : r0 = r := by simpa using h
    subst this
    exact ⟨(i, r0), dictGet_mem _ _ _ hd, rfl⟩
  | none =>
    rw [hd] at h
    rcases Option.map_eq_some'.mp h with ⟨q, hq, hq2⟩
    exact ⟨q, List.mem_of_find?_eq_some hq, hq2⟩

theorem register_ok_shape (hp : String → String) (st : AppState) (u p : String)
    (e : Option String) (r : AppState × String) (h : register hp st u p e = .ok r) :
    r.1 = { st with users := dictInsert st.users u ⟨hp p, e⟩ } := by
  unfold register at h
  split at h
  · simp at h
  · split at h
    · simp at h
    · have := Except.ok.inj h
      rw [← this]

theorem login_ok_shape (hp : String → String) (st : AppState) (i p tk : String)
    (r : AppState × String) (h : login hp st i p tk = .ok r) :
    ∃ u', (dictGet st.users u').isSome = true ∧
      r.1 = { st with tokens := dictInsert st.tokens tk (some u') } := by
  cases hrec : lookupRecord st i with
  | none => simp [login, hrec] at h
  | some rec =>
    simp only [login, hrec] at h
    split at h
    · obtain ⟨q0, hq0, hq02⟩ := lookupRecord_mem st i rec hrec
      have hfind : (st.users.find? (fun x => x.2 == rec)).isSome := by
        rw [List.find?_isSome]
        exact ⟨q0, hq0, by simp [hq02]⟩
      obtain ⟨q, hq⟩ := Option.isSome_iff_exists.mp hfind
      have hqmem := List.mem_of_find?_eq_some hq
      have hro := Except.ok.inj h
      refine ⟨q.1, dictGet_isSome_of_mem _ _ q.2 ?_, ?_⟩
      · simpa using hqmem
      · rw [← hro]
        simp [hq]
    · simp at h

theorem logout_ok_shape (st : AppState) (t : String) (r : AppState × String)
    (h : logout st t = .ok r) :
    r.1 = { st with tokens := dictRemove st.tokens t } := by
  unfold logout at h
  split at h
  · have := Except.ok.inj h
    rw [← this]
  · simp at h

theorem dictGet_insert_isSome {α : Type} (d : List (String × α)) (k k' : String) (v : α)
    (h : (dictGet d k').isSome = true) : (dictGet (dictInsert d k v) k').isSome = true := by
  by_cases hk : k' = k
  · subst hk
    rw [dictGet_insert_self]
    rfl
  · rw [dictGet_insert_ne d k k' v hk]
    exact h

theorem sessionInvB_users_grow (st : AppState) (u : String) (rec : UserRec)
    (h : sessionInvB st = true) :
    sessionInvB ⟨dictInsert st.users u rec, st.tokens⟩ = true := by
  unfold sessionInvB at h ⊢
  rw [List.all_eq_true] at h ⊢
  intro p hp2
  have hpred := h p hp2
  obtain ⟨t0, v⟩ := p
  cases v with
  | none => simpa [tokenOk] using hpred
  | some u' =>
    simp only [tokenOk] at hpred ⊢
    exact dictGet_insert_isSome _ _ _ _ hpred

theorem sessionInvB_token_insert (st : AppState) (tk u' : String)
    (h : sessionInvB st = true) (hu : (dictGet st.users u').isSome = true) :
    sessionInvB { st with tokens := dictInsert st.tokens tk (some u') } = true := by
  unfold sessionInvB at h ⊢
  rw [List.all_eq_true] at h ⊢
  intro p hp2
  rcases mem_dictInsert _ _ _ _ hp2 with hmem | heq
  · exact h p hmem
  · subst heq
    simpa [tokenOk] using hu

theorem sessionInvB_token_remove (st : AppState) (t : String)
    (h : sessionInvB st = true) :
    sessionInvB { st with tokens := dictRemove st.tokens t } = true := by
  unfold sessionInvB at h ⊢
  rw [List.all_eq_true] at h ⊢
  intro p hp2
  exact h p (List.mem_of_mem_filter hp2)

/-- Claim C1, as stated, is false "when another registered user's record holds
an identical password hash and email": register `a` then `b`, both with
password `x` and no email (both registrations succeed — email uniqueness is
not checked for absent emails); login as `b` succeeds, but the reverse value
lookup binds the token to `a`, the first user with a value-identical record,
and profile then returns `a`'s data, not `b`'s. -/
theorem C1_counterexample :
    register (fun s => s) emptyState "a" "x" none
      = .ok (⟨[("a", ⟨"x", none⟩)], []⟩, "User registered") ∧
    register (fun s => s) ⟨[("a", ⟨"x", none⟩)], []⟩ "b" "x" none
      = .ok (⟨[("a", ⟨"x", none⟩), ("b", ⟨"x", none⟩)], []⟩, "User registered") ∧
    login (fun s => s) ⟨[("a", ⟨"x", none⟩), ("b", ⟨"x", none⟩)], []⟩ "b" "x" "t"
      = .ok (⟨[("a", ⟨"x", none⟩), ("b", ⟨"x", none⟩)], [("t", some "a")]⟩, "t") ∧
    profile ⟨[("a", ⟨"x", none⟩), ("b", ⟨"x", none⟩)], [("t", some "a")]⟩ "t"
      = .ok ("a", none) :=
  ⟨rfl, rfl, rfl, rfl⟩

/-- Claim C1 (amended: restricted to a non-empty username no other user of
which holds a value-identical record — the code binds the token by reverse
value lookup over the user dict, so an identical record registered earlier
captures the token, and `profile` rejects a token bound to the empty
username): login with a registered username and password succeeds, binds the
returned token to that username, and a subsequent profile call with the token
returns exactly that username and the email supplied at registration (or
`none`). -/
theorem C1_login_profile_roundtrip (hp : String → String) (st : AppState)
    (username password : String) (email : Option String) (t : String)
    (hu : dictGet st.users username = some ⟨hp password, email⟩)
    (hne : username ≠ "")
    (huniq : ∀ q ∈ st.users, q.2 = UserRec.mk (hp password) email → q.1 = username) :
    login hp st username password t
      = .ok ({ st with tokens := dictInsert st.tokens t (some username) }, t) ∧
    profile { st with tokens := dictInsert st.tokens t (some username) } t
      = .ok (username, email) := by
  have hlr : lookupRecord st username = some ⟨hp password, email⟩ := by
    unfold lookupRecord
    rw [hu]
  have hqmem : (username, UserRec.mk (hp password) email) ∈ st.users := dictGet_mem _ _ _ hu
  have hfind : (st.users.find? (fun q => q.2 == UserRec.mk (hp password) email)).isSome := by
    rw [List.find?_isSome]
    exact ⟨_, hqmem, by simp⟩
  obtain ⟨q, hq⟩ := Option.isSome_iff_exists.mp hfind
  have hq1 : q.1 = username :=
    huniq q (List.mem_of_find?_eq_some hq) (by simpa using List.find?_some hq)
  constructor
  · simp [login, hlr, hq, hq1]
  · simp [profile, dictGet_insert_self, hne, hu]

/-- Witness for C1_login_profile_roundtrip on a one-user store. -/
theorem C1_witness :
    login (fun s => s) ⟨[("u", ⟨"pw", some "u@x"⟩)], []⟩ "u" "pw" "tok"
      = .ok (⟨[("u", ⟨"pw", some "u@x"⟩)], [("tok", some "u")]⟩, "tok") ∧
    profile ⟨[("u", ⟨"pw", some "u@x"⟩)], [("tok", some "u")]⟩ "tok"
      = .ok ("u", some "u@x") :=
  C1_login_profile_roundtrip (fun s => s) ⟨[("u", ⟨"pw", some "u@x"⟩)], []⟩
    "u" "pw" (some "u@x") "tok" rfl (by decide) (by decide)

/-- Claim C7, as stated, is false for empty-string emails: with user `a`
registered with email `""`, registering `b` while supplying the
already-registered email `""` succeeds — `if user.email and ...` skips the
duplicate check because the empty string is falsy. -/
theorem C7_counterexample :
    register (fun s => s) emptyState "a" "x" (some "")
      = .ok (⟨[("a", ⟨"x", some ""⟩)], []⟩, "User registered") ∧
    register (fun s => s) ⟨[("a", ⟨"x", some ""⟩)], []⟩ "b" "y" (some "")
      = .ok (⟨[("a", ⟨"x", some ""⟩), ("b", ⟨"y", some ""⟩)], []⟩, "User registered") :=
  ⟨rfl, rfl⟩

/-- Claim C7 (amended: the duplicate-email check applies only to a supplied
NON-EMPTY email — an empty-string email is falsy in Python and skips the
check): register fails with DuplicateUsername when the username exists; fails
with DuplicateEmail when a non-empty email is supplied and already registered;
otherwise adds exactly the record `{password_hash = hash(password), email}`;
and on either failure the credential store is unchanged. -/
theorem C7_register_contract (hp : String → String) (st : AppState)
    (u p : String) (e : Option String) :
    ((dictGet st.users u).isSome = true →
      register hp st u p e = .error (400, "Username already exists")) ∧
    (∀ s : String, dictGet st.users u = none → e = some s → s ≠ "" →
      (∃ q ∈ st.users, q.2.email = some s) →
      register hp st u p e = .error (400, "Email already registered")) ∧
    (dictGet st.users u = none →
      (∀ s : String, e = some s → s ≠ "" → ∀ q ∈ st.users, q.2.email ≠ some s) →
      register hp st u p e
        = .ok ({ users := dictInsert st.users u ⟨hp p, e⟩, tokens := st.tokens },
               "User registered")) ∧
    (∀ err, register hp st u p e = .error err → stepOp hp st (.opRegister u p e) = st) := by
  refine ⟨?_, ?_, ?_, ?_⟩
  · intro h
    simp [register, h]
  · intro s hnone hes hsne hex
    have hany : st.users.any (fun q => q.2.email == e) = true := by
      rw [List.any_eq_true]
      obtain ⟨q, hq, hq2⟩ := hex
      exact ⟨q, hq, by simp [hq2, hes]⟩
    have htr : emailTruthy e = true := by
      subst hes
      simp [emailTruthy, hsne]
    simp [register, hnone, hany, htr]
  · intro hnone hfresh
    have hcond : (emailTruthy e && st.users.any (fun q => q.2.email == e)) = false := by
      cases e with
      | none => rfl
      | some s =>
        by_cases hs : s = ""
        · subst hs
          rfl
        · have hany : st.users.any (fun q => q.2.email == some s) = false := by
            rw [List.any_eq_false]
            intro q hq
            intro hc
            exact (hfresh s rfl hs q hq) (by simpa using hc)
          simp [emailTruthy, hs, hany]
    simp [register, hnone, hcond]
  · intro err herr
    simp [stepOp, herr]

/-- Witness for C7_register_contract on a one-user store holding
`("a", {password "h", email "e"})`. -/
theorem C7_witness :
    register (fun s => s) ⟨[("a", ⟨"h", some "e"⟩)], []⟩ "a" "q" none
      = .error (400, "Username already exists") ∧
    register (fun s => s) ⟨[("a", ⟨"h", some "e"⟩)], []⟩ "b" "q" (some "e")
      = .error (400, "Email already registered") ∧
    register (fun s => s) ⟨[("a", ⟨"h", some "e"⟩)], []⟩ "b" "q" (some "f")
      = .ok (⟨[("a", ⟨"h", some "e"⟩), ("b", ⟨"q", some "f"⟩)], []⟩, "User registered") ∧
    stepOp (fun s => s) ⟨[("a", ⟨"h", some "e"⟩)], []⟩ (.opRegister "a" "q" none)
      = ⟨[("a", ⟨"h", some "e"⟩)], []⟩ := by
  have h1 := (C7_register_contract (fun s => s) ⟨[("a", ⟨"h", some "e"⟩)], []⟩
    "a" "q" none).1 (by decide)
  have h2 := (C7_register_contract (fun s => s) ⟨[("a", ⟨"h", some "e"⟩)], []⟩
    "b" "q" (some "e")).2.1 "e" rfl rfl (by decide)
    ⟨("a", ⟨"h", some "e"⟩), by decide, rfl⟩
  have h3 := (C7_register_contract (fun s => s) ⟨[("a", ⟨"h", some "e"⟩)], []⟩
    "b" "q" (some "f")).2.2.1 rfl (by
      intro s hs hsne q hq
      cases hs
      simp only [List.mem_singleton] at hq
      subst hq
      decide)
  have h4 := (C7_register_contract (fun s => s) ⟨[("a", ⟨"h", some "e"⟩)], []⟩
    "a" "q" none).2.2.2 (400, "Username already exists") h1
  exact ⟨h1, h2, h3, h4⟩

theorem stepOp_token_absent (hp : String → String) (st : AppState) (t : String) (op : Op)
    (h : dictGet st.tokens t = none) (hop : opIssues op t = false) :
    dictGet (stepOp hp st op).tokens t = none := by
  cases op with
  | opRegister u p e =>
    simp only [stepOp]
    cases hr : register hp st u p e with
    | ok r =>
      show dictGet r.1.tokens t = none
      rw [register_ok_shape hp st u p e r hr]
      exact h
    | error err => exact h
  | opLogin i p2 tk =>
    simp only [stepOp]
    cases hr : login hp st i p2 tk with
    | ok r =>
      obtain ⟨u', hu', hshape⟩ := login_ok_shape hp st i p2 tk r hr
      show dictGet r.1.tokens t = none
      rw [hshape]
      show dictGet (dictInsert st.tokens tk (some u')) t = none
      have htne : t ≠ tk := by
        simp only [opIssues] at hop
        intro hcontra
        subst hcontra
        simp at hop
      rw [dictGet_insert_ne st.tokens tk t (some u') htne]
      exact h
    | error err => exact h
  | opProfile tk => exact h
  | opLogout tk =>
    simp only [stepOp]
    cases hr : logout st tk with
    | ok r =>
      show dictGet r.1.tokens t = none
      rw [logout_ok_shape st tk r hr]
      exact dictGet_remove_none st.tokens tk t h
    | error err => exact h

/-- Claim C8: logout on a token absent from the session map fails with
InvalidToken; logout on a present token removes it from the map; profile on an
absent token fails with InvalidToken; and a token once absent stays absent
under any subsequent sequence of operations none of which is a login issuing
that very token string (the code's tokens are 128-bit `secrets.token_hex(16)`
values, so a logged-out token is never re-issued), hence every subsequent use
of it at profile or logout fails with InvalidToken. -/
theorem C8_logout_revocation :
    (∀ (st : AppState) (t : String), dictGet st.tokens t = none →
      logout st t = .error (401, "Invalid token")) ∧
    (∀ (st : AppState) (t : String), (dictGet st.tokens t).isSome = true →
      logout st t
        = .ok ({ st with tokens := dictRemove st.tokens t }, "Logged out successfully") ∧
      dictGet (dictRemove st.tokens t) t = none) ∧
    (∀ (st : AppState) (t : String), dictGet st.tokens t = none →
      profile st t = .error (401, "Invalid token")) ∧
    (∀ (hp : String → String) (st : AppState) (t : String) (ops : List Op),
      dictGet st.tokens t = none → (∀ op ∈ ops, opIssues op t = false) →
      dictGet (runOps hp st ops).tokens t = none) := by
  refine ⟨?_, ?_, ?_, ?_⟩
  · intro st t h
    simp [logout, h]
  · intro st t h
    exact ⟨by simp [logout, h], dictGet_remove_self _ _⟩
  · intro st t h
    simp [profile, h]
  · intro hp st t ops
    induction ops generalizing st with
    | nil =>
      intro h _
      simpa [runOps] using h
    | cons op ops ih =>
      intro h hops
      have hstep := stepOp_token_absent hp st t op h (hops op (List.mem_cons_self _ _))
      have hrest : ∀ o ∈ ops, opIssues o t = false :=
        fun o ho => hops o (List.mem_cons_of_mem _ ho)
      simpa [runOps] using ih (stepOp hp st op) hstep hrest

/-- Witness for C8_logout_revocation: logging out the one live token empties
the map; afterwards logout and profile reject it, and it stays absent under a
register, a login issuing a different token, and a profile. -/
theorem C8_witness :
    logout ⟨[("u", ⟨"h", none⟩)], [("t", some "u")]⟩ "t"
      = .ok (⟨[("u", ⟨"h", none⟩)], []⟩, "Logged out successfully") ∧
    dictGet (dictRemove [("t", some "u")] "t") "t" = none ∧
    logout ⟨[("u", ⟨"h", none⟩)], []⟩ "t" = .error (401, "Invalid token") ∧
    profile ⟨[("u", ⟨"h", none⟩)], []⟩ "t" = .error (401, "Invalid token") ∧
    dictGet (runOps (fun s => s) ⟨[("u", ⟨"h", none⟩)], []⟩
      [.opRegister "w" "pw" none, .opLogin "w" "pw" "t2", .opProfile "t"]).tokens "t"
      = none := by
  have h2 := C8_logout_revocation.2.1 ⟨[("u", ⟨"h", none⟩)], [("t", some "u")]⟩ "t" (by decide)
  exact ⟨h2.1, h2.2,
    C8_logout_revocation.1 ⟨[("u", ⟨"h", none⟩)], []⟩ "t" rfl,
    C8_logout_revocation.2.2.1 ⟨[("u", ⟨"h", none⟩)], []⟩ "t" rfl,
    C8_logout_revocation.2.2.2 (fun s => s) ⟨[("u", ⟨"h", none⟩)], []⟩ "t"
      [.opRegister "w" "pw" none, .opLogin "w" "pw" "t2", .opProfile "t"] rfl (by decide)⟩

/-- Claim C10: the session invariant — every token in the session map is bound
to a non-`None` username that is a key of the user store — holds initially and
is preserved by every operation (register, login, logout, profile);
consequently any valid token's binding names an existing user record, and
`profile` never reaches the user-lookup crash (`users.get(username)` returning
`None` and `None.get("email")` raising). -/
theorem C10_session_invariant :
    (sessionInvB emptyState = true) ∧
    (∀ (hp : String → String) (st : AppState) (op : Op),
      sessionInvB st = true → sessionInvB (stepOp hp st op) = true) ∧
    (∀ (st : AppState) (t : String) (v : Option String),
      sessionInvB st = true → dictGet st.tokens t = some v →
      ∃ u, v = some u ∧ (dictGet st.users u).isSome = true) ∧
    (∀ (st : AppState) (t : String),
      sessionInvB st = true → profile st t ≠ .error (500, "AttributeError")) := by
  refine ⟨rfl, ?_, ?_, ?_⟩
  · intro hp st op hinv
    cases op with
    | opRegister u p e =>
      simp only [stepOp]
      cases hr : register hp st u p e with
      | ok r =>
        show sessionInvB r.1 = true
        rw [register_ok_shape hp st u p e r hr]
        exact sessionInvB_users_grow st u ⟨hp p, e⟩ hinv
      | error err => exact hinv
    | opLogin i p2 tk =>
      simp only [stepOp]
      cases hr : login hp st i p2 tk with
      | ok r =>
        obtain ⟨u', hu', hshape⟩ := login_ok_shape hp st i p2 tk r hr
        show sessionInvB r.1 = true
        rw [hshape]
        exact sessionInvB_token_insert st tk u' hinv hu'
      | error err => exact hinv
    | opProfile tk => exact hinv
    | opLogout tk =>
      simp only [stepOp]
      cases hr : logout st tk with
      | ok r =>
        show sessionInvB r.1 = true
        rw [logout_ok_shape st tk r hr]
        exact sessionInvB_token_remove st tk hinv
      | error err => exact hinv
  · intro st t v hinv hget
    have hmem := dictGet_mem _ _ _ hget
    have hall : tokenOk st.users (t, v) = true := by
      have h2 : st.tokens.all (tokenOk st.users) = true := hinv
      exact List.all_eq_true.mp h2 (t, v) hmem
    cases v with
    | none => simp [tokenOk] at hall
    | some u => exact ⟨u, rfl, by simpa [tokenOk] using hall⟩
  · intro st t hinv
    cases hv : dictGet st.tokens t with
    | none => simp [profile, hv]
    | some v =>
      cases v with
      | none => simp [profile, hv]
      | some u =>
        by_cases hu : u = ""
        · subst hu
          simp [profile, hv]
        · have hmem := dictGet_mem _ _ _ hv
          have hall : tokenOk st.users (t, some u) = true := by
            have h2 : st.tokens.all (tokenOk st.users) = true := hinv
            exact List.all_eq_true.mp h2 _ hmem
          have husers : (dictGet st.users u).isSome = true := by
            simpa [tokenOk] using hall
          obtain ⟨rec, hrec⟩ := Option.isSome_iff_exists.mp husers
          simp [profile, hv, hu, hrec]

/-- Witness for C10_session_invariant on a state with one user and one live
token: the invariant survives a login step, the token binding names an
existing user, and profile does not crash. -/
theorem C10_witness :
    sessionInvB (stepOp (fun s => s) ⟨[("u", ⟨"h", none⟩)], [("t", some "u")]⟩
      (.opLogin "u" "h" "t2")) = true ∧
    (∃ w, (some "u" : Option String) = some w ∧
      (dictGet [("u", UserRec.mk "h" none)] w).isSome = true) ∧
    profile ⟨[("u", ⟨"h", none⟩)], [("t", some "u")]⟩ "t" ≠ .error (500, "AttributeError") :=
  ⟨C10_session_invariant.2.1 (fun s => s) ⟨[("u", ⟨"h", none⟩)], [("t", some "u")]⟩
      (.opLogin "u" "h" "t2") (by decide),
   C10_session_invariant.2.2.1 ⟨[("u", ⟨"h", none⟩)], [("t", some "u")]⟩ "t" (some "u")
      (by decide) rfl,
   C10_session_invariant.2.2.2 ⟨[("u", ⟨"h", none⟩)], [("t", some "u")]⟩ "t" (by decide)⟩

end NJA
